import Mathlib

/-!
Shallow embedding of the 2D batched renderer of the poseidon game engine
(`src/graphics/renderer_2d.rs`, `src/graphics/array_buffer.rs`,
`src/graphics/texture.rs`, `src/graphics/index_buffer.rs`,
`src/graphics/renderer.rs`).

Modelling conventions:
* `f32` scalars are embedded as exact rationals `ℚ`; the batch code performs
  only a handful of multiplications/subtractions on them, which the embedding
  transcribes literally.
* The Rust `usize` counters are embedded as `ℕ`; the `as i32` / `as u32`
  casts are embedded by explicit twos-complement / truncation functions.
* Indexed writes `self.vertices[i] = v` on the fixed-size staging array are
  embedded by a bounds-checked `set` returning `Option` (an out-of-bounds
  index panics in Rust; `none` models the panic).
* Every interaction with the GPU (buffer uploads, texture-unit binds, shader
  binds, draw calls) is recorded in an explicit command trace `List GpuCmd`.
-/

/-- Twos-complement interpretation of a Rust `usize as i32` cast. -/
def i32ofNat (n : ℕ) : ℤ :=
  ((n % 2 ^ 32 : ℕ) : ℤ) - (if 2 ^ 31 ≤ n % 2 ^ 32 then 2 ^ 32 else 0)

/-- Truncating interpretation of a Rust `usize as u32` cast. -/
def u32ofNat (n : ℕ) : ℕ := n % 2 ^ 32

/-- Embedding of `Vec2f` (`src/math/vec2f.rs`): a 2D vector of `f32`. -/
structure Vec2f where
  x : ℚ
  y : ℚ
deriving DecidableEq

/-- Embedding of `Vec2f::new`. -/
def Vec2f.new (x y : ℚ) : Vec2f := ⟨x, y⟩

/-- Embedding of `Vec2f::zero`. -/
def Vec2f.zero : Vec2f := ⟨0, 0⟩

/-- Embedding of `Vec3f` (`src/math/vec3f.rs`): a 3D vector of `f32`. -/
structure Vec3f where
  x : ℚ
  y : ℚ
  z : ℚ
deriving DecidableEq

/-- Embedding of `Vec3f::new`. -/
def Vec3f.new (x y z : ℚ) : Vec3f := ⟨x, y, z⟩

/-- Embedding of `Vec3f::zero`. -/
def Vec3f.zero : Vec3f := ⟨0, 0, 0⟩

/-- Embedding of `Vec4f` (`src/math/vec4f.rs`): a 4D vector of `f32`. -/
structure Vec4f where
  x : ℚ
  y : ℚ
  z : ℚ
  w : ℚ
deriving DecidableEq

/-- Embedding of `Vec4f::zero`. -/
def Vec4f.zero : Vec4f := ⟨0, 0, 0, 0⟩

/-- Embedding of `Mat4f` (`src/math/mat4f.rs`): sixteen `f32` values. -/
structure Mat4f where
  values : List ℚ
deriving DecidableEq

/-- Embedding of `Texture` (`src/graphics/texture.rs`).  The GPU-side object
is identified by the pixel data and dimensions it was created with. -/
structure Texture where
  data : List ℕ
  width : ℕ
  height : ℕ
deriving DecidableEq

/-- Embedding of `Texture::with_data`: `assert_eq!(data.len() / 4,
(width * height) as usize)` then creation; the failed assertion (a panic)
is modelled by `none`. -/
def Texture.with_data (data : List ℕ) (width height : ℕ) : Option Texture :=
  if data.length / 4 = width * height then some ⟨data, width, height⟩ else none

/-- Embedding of `Shader` (`src/graphics/shader.rs`): identified by its two
GLSL source strings. -/
structure Shader where
  vertex_source : String
  fragment_source : String
deriving DecidableEq

/-- Embedding of `Rect` (`renderer_2d.rs`). -/
structure Rect where
  position : Vec3f
  size : Vec2f
  pivot : Vec2f
  uv_min : Vec2f
  uv_max : Vec2f
deriving DecidableEq

/-- Embedding of `Rect::new`. -/
def Rect.new (position : Vec3f) (size pivot uv_min uv_max : Vec2f) : Rect :=
  ⟨position, size, pivot, uv_min, uv_max⟩

/-- Embedding of `Rect::left`: `position.x - size.x * pivot.x`. -/
def Rect.left (r : Rect) : ℚ := r.position.x - r.size.x * r.pivot.x

/-- Embedding of `Rect::right`: `position.x + size.x * (1.0 - pivot.x)`. -/
def Rect.right (r : Rect) : ℚ := r.position.x + r.size.x * (1 - r.pivot.x)

/-- Embedding of `Rect::bottom`: `position.y - size.y * pivot.y`. -/
def Rect.bottom (r : Rect) : ℚ := r.position.y - r.size.y * r.pivot.y

/-- Embedding of `Rect::top`: `position.y + size.y * (1.0 - pivot.y)`. -/
def Rect.top (r : Rect) : ℚ := r.position.y + r.size.y * (1 - r.pivot.y)

/-- Embedding of `Rect::bounds`: the tuple `(left, right, top, bottom)`. -/
def Rect.bounds (r : Rect) : ℚ × ℚ × ℚ × ℚ := (r.left, r.right, r.top, r.bottom)

/-- Batch capacity constant `MAX_RECTS_IN_BATCH` from `renderer_2d.rs`. -/
def MAX_RECTS_IN_BATCH : ℕ := 512

/-- `MAX_VERTS_IN_BATCH = MAX_RECTS_IN_BATCH * 4`. -/
def MAX_VERTS_IN_BATCH : ℕ := MAX_RECTS_IN_BATCH * 4

/-- `MAX_INDICES_IN_BATCH = MAX_RECTS_IN_BATCH * 6`. -/
def MAX_INDICES_IN_BATCH : ℕ := MAX_RECTS_IN_BATCH * 6

/-- `MAX_TEXTURE_SLOTS` from `renderer_2d.rs`. -/
def MAX_TEXTURE_SLOTS : ℕ := 32

/-- Embedding of `RectVertex`: one corner record of a batched rectangle. -/
structure RectVertex where
  position : Vec3f
  uv : Vec2f
  color : Vec4f
  slot : ℤ
deriving DecidableEq

/-- Embedding of `RectVertex::new`. -/
def RectVertex.new (position : Vec3f) (uv : Vec2f) (color : Vec4f) (slot : ℤ) :
    RectVertex :=
  ⟨position, uv, color, slot⟩

/-- Embedding of `RectVertex::default`. -/
def RectVertex.default : RectVertex := ⟨Vec3f.zero, Vec2f.zero, Vec4f.zero, 0⟩

/-- Byte size of one `RectVertex` record (`size_of::<RectVertex>()`):
`Vec3f` (12) + `Vec2f` (8) + `Vec4f` (16) + `i32` (4). -/
def sizeOfRectVertex : ℕ := 40

/-- GPU commands issued by the renderer, in program order. -/
inductive GpuCmd where
  | uploadVertexData (records : List RectVertex) (byteSize : ℕ)
  | uploadIndexData (indices : List ℕ) (count : ℕ)
  | drawElements (indexCount : ℕ)
  | bindTextureToSlot (texture : Texture) (slot : ℕ)
  | bindShader (shader : Shader)
  | setUniformMat4 (name : String) (value : Mat4f)
  | setUniformIntArray (name : String) (values : List ℤ)
deriving DecidableEq

/-- Bounds-checked list update: models the Rust indexed store
`self.vertices[i] = v`, which panics (here: `none`) when `i` is outside the
array. -/
def setChecked (l : List RectVertex) (i : ℕ) (v : RectVertex) :
    Option (List RectVertex) :=
  if i < l.length then some (l.set i v) else none

/-- Embedding of the `RectBatch` accumulator state.  `index_data` is the
GPU-side content of the index buffer of the batch (uploaded at construction). -/
structure RectBatch where
  vertices : List RectVertex
  next_rect : ℕ
  next_texture_slot : ℕ
  index_data : List ℕ
deriving DecidableEq

/-- One iteration of the index-pattern loop in `RectBatch::new`: writes the
six indices of rectangle slot `i` into the staging array. -/
def writeRectIndices (indices : List ℕ) (i : ℕ) : List ℕ :=
  let index := i * 6
  let vertex := i * 4
  ((((((indices.set (index + 0) (vertex + 0)).set (index + 1) (vertex + 1)).set
      (index + 2) (vertex + 2)).set (index + 3) (vertex + 0)).set
      (index + 4) (vertex + 2)).set (index + 5) (vertex + 3))

/-- The index staging array after the first `n` iterations of the loop in
`RectBatch::new` (starting from `[0u32; MAX_INDICES_IN_BATCH]`). -/
def indicesAfter (n : ℕ) : List ℕ :=
  (List.range n).foldl writeRectIndices (List.replicate MAX_INDICES_IN_BATCH 0)

/-- The full index pattern computed by `RectBatch::new`. -/
def buildIndices : List ℕ := indicesAfter MAX_RECTS_IN_BATCH

/-- Embedding of `RectBatch::new`: the initial accumulator state together
with the construction-time GPU commands (the one-time index upload). -/
def RectBatch.new : RectBatch × List GpuCmd :=
  (⟨List.replicate MAX_VERTS_IN_BATCH RectVertex.default, 0, 1, buildIndices⟩,
   [GpuCmd.uploadIndexData buildIndices MAX_INDICES_IN_BATCH])

/-- Embedding of `RectBatch::reset`: `next_rect = 0; next_texture_slot = 1`. -/
def RectBatch.reset (b : RectBatch) : RectBatch :=
  { b with next_rect := 0, next_texture_slot := 1 }

/-- Embedding of `RectBatch::draw` (takes `&self`, hence returns the state
unchanged): uploads `size_of::<RectVertex>() * 4 * next_rect` bytes of the
staging array — i.e. its first `4 * next_rect` records — then draws
`next_rect * 6` indices. -/
def RectBatch.draw (b : RectBatch) : RectBatch × List GpuCmd :=
  (b,
   [GpuCmd.uploadVertexData (b.vertices.take (4 * b.next_rect))
      (sizeOfRectVertex * 4 * b.next_rect),
    GpuCmd.drawElements (u32ofNat (b.next_rect * 6))])

/-- Embedding of `RectBatch::add_rect`.  The four indexed stores are
transcribed in program order; any out-of-bounds store makes the whole call
`none` (Rust panics on the first such store, before writing anything). -/
def RectBatch.add_rect (b : RectBatch) (rect : Rect) (color : Vec4f) :
    Option (RectBatch × List GpuCmd) := do
  let bounds := rect.bounds
  let i := b.next_rect * 4
  let v0 ← setChecked b.vertices (i + 0)
    (RectVertex.new (Vec3f.new bounds.1 bounds.2.2.2 rect.position.z)
      rect.uv_min color 0)
  let v1 ← setChecked v0 (i + 1)
    (RectVertex.new (Vec3f.new bounds.2.1 bounds.2.2.2 rect.position.z)
      (Vec2f.new rect.uv_max.x rect.uv_min.y) color 0)
  let v2 ← setChecked v1 (i + 2)
    (RectVertex.new (Vec3f.new bounds.2.1 bounds.2.2.1 rect.position.z)
      rect.uv_max color 0)
  let v3 ← setChecked v2 (i + 3)
    (RectVertex.new (Vec3f.new bounds.1 bounds.2.2.1 rect.position.z)
      (Vec2f.new rect.uv_min.x rect.uv_max.y) color 0)
  pure ({ b with vertices := v3, next_rect := b.next_rect + 1 }, [])

/-- Embedding of `RectBatch::add_textured_rect`: same corner layout with
`slot = next_texture_slot as i32`, then `next_rect += 1`, then the eager
`texture.bind_to_slot(next_texture_slot as u32)`, then
`next_texture_slot += 1`. -/
def RectBatch.add_textured_rect (b : RectBatch) (rect : Rect)
    (texture : Texture) (tint : Vec4f) : Option (RectBatch × List GpuCmd) := do
  let bounds := rect.bounds
  let i := b.next_rect * 4
  let slot := i32ofNat b.next_texture_slot
  let v0 ← setChecked b.vertices (i + 0)
    (RectVertex.new (Vec3f.new bounds.1 bounds.2.2.2 rect.position.z)
      rect.uv_min tint slot)
  let v1 ← setChecked v0 (i + 1)
    (RectVertex.new (Vec3f.new bounds.2.1 bounds.2.2.2 rect.position.z)
      (Vec2f.new rect.uv_max.x rect.uv_min.y) tint slot)
  let v2 ← setChecked v1 (i + 2)
    (RectVertex.new (Vec3f.new bounds.2.1 bounds.2.2.1 rect.position.z)
      rect.uv_max tint (i32ofNat b.next_texture_slot))
  let v3 ← setChecked v2 (i + 3)
    (RectVertex.new (Vec3f.new bounds.1 bounds.2.2.1 rect.position.z)
      (Vec2f.new rect.uv_min.x rect.uv_max.y) tint slot)
  pure ({ b with
            vertices := v3,
            next_rect := b.next_rect + 1,
            next_texture_slot := b.next_texture_slot + 1 },
        [GpuCmd.bindTextureToSlot texture (u32ofNat b.next_texture_slot)])

/-- One accumulation request between `reset()` and `draw()`:
either `add_rect` or `add_textured_rect` with its arguments. -/
inductive BatchOp where
  | rect (rect : Rect) (color : Vec4f)
  | textured (rect : Rect) (texture : Texture) (tint : Vec4f)
deriving DecidableEq

/-- Apply one accumulation request to the batch. -/
def applyOp (b : RectBatch) : BatchOp → Option (RectBatch × List GpuCmd)
  | .rect r c => b.add_rect r c
  | .textured r t c => b.add_textured_rect r t c

/-- Run a sequence of accumulation requests, concatenating the GPU command
traces in program order. -/
def runOps (b : RectBatch) : List BatchOp → Option (RectBatch × List GpuCmd)
  | [] => some (b, [])
  | op :: ops => do
    let (b1, tr1) ← applyOp b op
    let (b2, tr2) ← runOps b1 ops
    pure (b2, tr1 ++ tr2)

/-- Any call of the public `RectBatch` surface, for whole-lifecycle
statements (`reset`/`draw` cycles included). -/
inductive BatchCall where
  | reset
  | draw
  | rect (rect : Rect) (color : Vec4f)
  | textured (rect : Rect) (texture : Texture) (tint : Vec4f)
deriving DecidableEq

/-- Apply one `RectBatch` call. -/
def applyCall (b : RectBatch) : BatchCall → Option (RectBatch × List GpuCmd)
  | .reset => some (b.reset, [])
  | .draw => some b.draw
  | .rect r c => b.add_rect r c
  | .textured r t c => b.add_textured_rect r t c

/-- Run a sequence of `RectBatch` calls. -/
def runCalls (b : RectBatch) : List BatchCall → Option (RectBatch × List GpuCmd)
  | [] => some (b, [])
  | c :: cs => do
    let (b1, tr1) ← applyCall b c
    let (b2, tr2) ← runCalls b1 cs
    pure (b2, tr1 ++ tr2)

/-- The vertex-shader source string of `Renderer2D::new`. -/
def VERTEX_SHADER : String :=
  "#version 330 core\nlayout (location = 0) in vec3 v_in_position;\nlayout (location = 1) in vec2 v_in_uv;\nlayout (location = 2) in vec4 v_in_color;\nlayout (location = 3) in int v_in_tex_slot;\nout vec2 v_out_uv;\nout vec4 v_out_color;\nflat out int v_out_tex_slot;\nuniform mat4 u_view_projection;\nvoid main() \x7b\nv_out_uv = v_in_uv;\nv_out_color = v_in_color;\nv_out_tex_slot = v_in_tex_slot;\ngl_Position = u_view_projection * vec4(v_in_position, 1.0);\n\x7d\n"

/-- The fragment-shader source string of `Renderer2D::new`. -/
def FRAGMENT_SHADER : String :=
  "#version 330 core\nin vec2 v_out_uv;\nin vec4 v_out_color;\nflat in int v_out_tex_slot;\nout vec4 f_out_color;\nuniform sampler2D u_textures[32];\nvoid main() \x7b\nf_out_color = texture(u_textures[v_out_tex_slot], v_out_uv) * v_out_color;\n\x7d\n"

/-- Embedding of `Renderer2D`: the shared shader, the default texture and
the owned `RectBatch`. -/
structure Renderer2D where
  default_shader : Shader
  default_texture : Texture
  rect_batch : RectBatch
deriving DecidableEq

/-- Embedding of `Renderer2D::new`: builds the default shader, sets its
uniforms, creates the 1×1 opaque-white default texture from pixel data
`[255, 255, 255, 255]`, and constructs the `RectBatch`.  `none` models the
panic of the `Texture::with_data` assertion. -/
def Renderer2D.new (view_projection : Mat4f) :
    Option (Renderer2D × List GpuCmd) := do
  let default_shader : Shader := ⟨VERTEX_SHADER, FRAGMENT_SHADER⟩
  let texture_slots : List ℤ := (List.range MAX_TEXTURE_SLOTS).map Int.ofNat
  let default_texture ← Texture.with_data [255, 255, 255, 255] 1 1
  let (batch, batchTrace) := RectBatch.new
  pure (⟨default_shader, default_texture, batch⟩,
        [GpuCmd.bindShader default_shader,
         GpuCmd.setUniformMat4 "u_view_projection" view_projection,
         GpuCmd.setUniformIntArray "u_textures" texture_slots]
        ++ batchTrace)

/-- Embedding of `Renderer2D::begin_batch`: `rect_batch.reset()` then
`default_texture.bind_to_slot(0)`. -/
def Renderer2D.begin_batch (r : Renderer2D) : Renderer2D × List GpuCmd :=
  ({ r with rect_batch := r.rect_batch.reset },
   [GpuCmd.bindTextureToSlot r.default_texture 0])

/-- Embedding of `Renderer2D::end_batch` (takes `&self`): binds the shared
shader and delegates to `rect_batch.draw()`. -/
def Renderer2D.end_batch (r : Renderer2D) : Renderer2D × List GpuCmd :=
  (r, GpuCmd.bindShader r.default_shader :: (r.rect_batch.draw).2)

/-- Embedding of `AttributeType` (`src/graphics/array_buffer.rs`). -/
inductive AttributeType where
  | Float
  | Vec2f
  | Vec3f
  | Vec4f
deriving DecidableEq

/-- Embedding of `AttributeType::size` (bytes). -/
def AttributeType.size : AttributeType → ℕ
  | .Float => 4
  | .Vec2f => 4 * 2
  | .Vec3f => 4 * 3
  | .Vec4f => 4 * 4

/-- Embedding of `BufferAttribute`. -/
structure BufferAttribute where
  attribute_type : AttributeType
  normalized : Bool
deriving DecidableEq

/-- Embedding of `BufferAttribute::new`. -/
def BufferAttribute.new (attribute_type : AttributeType) (normalized : Bool) :
    BufferAttribute :=
  ⟨attribute_type, normalized⟩

/-- Embedding of `BufferLayout`. -/
structure BufferLayout where
  attributes : List BufferAttribute
  offsets : List ℕ
  stride : ℕ
deriving DecidableEq

/-- Embedding of `BufferLayout::new`: `offsets` starts as `vec![0; len]`;
the loop writes the running byte offset into `offsets[i]` and accumulates
the attribute sizes; the final accumulator is the stride. -/
def BufferLayout.new (attributes : List BufferAttribute) : BufferLayout :=
  let init : List ℕ × ℕ := (List.replicate attributes.length 0, 0)
  let result := attributes.enum.foldl
    (fun acc p => (acc.1.set p.1 acc.2, acc.2 + p.2.attribute_type.size)) init
  ⟨attributes, result.1, result.2⟩

/-- The four corner records `add_rect`/`add_textured_rect` emit for one
rectangle, in source order: bottom-left, bottom-right, top-right, top-left. -/
def rectCorners (rect : Rect) (color : Vec4f) (slot : ℤ) : List RectVertex :=
  [RectVertex.new (Vec3f.new rect.left rect.bottom rect.position.z)
     rect.uv_min color slot,
   RectVertex.new (Vec3f.new rect.right rect.bottom rect.position.z)
     (Vec2f.new rect.uv_max.x rect.uv_min.y) color slot,
   RectVertex.new (Vec3f.new rect.right rect.top rect.position.z)
     rect.uv_max color slot,
   RectVertex.new (Vec3f.new rect.left rect.top rect.position.z)
     (Vec2f.new rect.uv_min.x rect.uv_max.y) color slot]

/-- Number of `add_textured_rect` requests in an op sequence. -/
def texCount : List BatchOp → ℕ
  | [] => 0
  | .rect _ _ :: ops => texCount ops
  | .textured _ _ _ :: ops => texCount ops + 1

/-- The textures of the `add_textured_rect` requests, in call order. -/
def texList : List BatchOp → List Texture
  | [] => []
  | .rect _ _ :: ops => texList ops
  | .textured _ t _ :: ops => t :: texList ops

/-- Expected staging-array content written by an op sequence starting with
`next_texture_slot = t`: four corner records per op, untextured ops with
slot 0, textured ops with the running slot. -/
def specVerts (t : ℕ) : List BatchOp → List RectVertex
  | [] => []
  | .rect r c :: ops => rectCorners r c 0 ++ specVerts t ops
  | .textured r _ tint :: ops =>
      rectCorners r tint (i32ofNat t) ++ specVerts (t + 1) ops

/-- Expected GPU trace of an op sequence starting with
`next_texture_slot = t`: one eager texture-unit bind per textured op. -/
def specTrace (t : ℕ) : List BatchOp → List GpuCmd
  | [] => []
  | .rect _ _ :: ops => specTrace t ops
  | .textured _ tex _ :: ops =>
      GpuCmd.bindTextureToSlot tex (u32ofNat t) :: specTrace (t + 1) ops

/-- Recognizer for index-buffer uploads. -/
def GpuCmd.isIndexUpload : GpuCmd → Bool
  | .uploadIndexData _ _ => true
  | _ => false

/-- Recognizer for texture-unit binds. -/
def GpuCmd.isTextureBind : GpuCmd → Bool
  | .bindTextureToSlot _ _ => true
  | _ => false

/-- Recognizer for draw calls. -/
def GpuCmd.isDrawCall : GpuCmd → Bool
  | .drawElements _ => true
  | _ => false

/-- Concrete rectangle used by the witnesses: `position = (0,0,0)`,
`size = (200,100)`, `pivot = (0,0)`, `uv_min = (0,0)`, `uv_max = (1,1)`. -/
def exampleRect : Rect :=
  Rect.new (Vec3f.new 0 0 0) (Vec2f.new 200 100) (Vec2f.new 0 0)
    (Vec2f.new 0 0) (Vec2f.new 1 1)

/-- Concrete opaque-red color used by the witnesses. -/
def exampleColor : Vec4f := ⟨1, 0, 0, 1⟩

/-- Concrete 2×2 checker texture used by the witnesses. -/
def exampleTexture : Texture :=
  ⟨[0, 0, 0, 255, 255, 255, 255, 255, 255, 255, 255, 255, 0, 0, 0, 255], 2, 2⟩

/-- A batch at rectangle capacity: the construction state with
`next_rect = MAX_RECTS_IN_BATCH`. -/
def fullBatch : RectBatch :=
  { RectBatch.new.1 with next_rect := MAX_RECTS_IN_BATCH }

/-- A batch whose texture slots are exhausted: the construction state with
`next_texture_slot = MAX_TEXTURE_SLOTS`. -/
def slotFullBatch : RectBatch :=
  { RectBatch.new.1 with next_texture_slot := MAX_TEXTURE_SLOTS }

lemma u32ofNat_eq {n : ℕ} (h : n < 2 ^ 32) : u32ofNat n = n := by
  unfold u32ofNat
  exact Nat.mod_eq_of_lt h

lemma i32ofNat_eq {n : ℕ} (h : n < 2 ^ 31) : i32ofNat n = (n : ℤ) := by
  unfold i32ofNat
  have hm : n % 2 ^ 32 = n := Nat.mod_eq_of_lt (by omega)
  rw [hm, if_neg (by omega)]
  ring

lemma setChecked_pos {l : List RectVertex} {i : ℕ} (v : RectVertex)
    (h : i < l.length) : setChecked l i v = some (l.set i v) := by
  unfold setChecked
  exact if_pos h

lemma setChecked_some_inv {l : List RectVertex} {i : ℕ} {v : RectVertex}
    {w : List RectVertex} (h : setChecked l i v = some w) :
    w = l.set i v ∧ w.length = l.length := by
  unfold setChecked at h
  split at h
  · cases h
    exact ⟨rfl, List.length_set l i v⟩
  · cases h

lemma set_quad {α : Type} (a b c d : α) (i : ℕ) (l : List α)
    (h : i + 4 ≤ l.length) :
    (((l.set i a).set (i + 1) b).set (i + 2) c).set (i + 3) d
      = l.take i ++ a :: b :: c :: d :: l.drop (i + 4) := by
  have hti : (l.take i).length = i := by
    rw [List.length_take]
    omega
  have hsplit : a :: b :: c :: d :: l.drop (i + 4) = [a, b, c, d] ++ l.drop (i + 4) := rfl
  apply List.ext_getElem?
  intro j
  rcases Nat.lt_or_ge j i with hj | hj
  · rw [List.getElem?_set_ne (by omega), List.getElem?_set_ne (by omega),
      List.getElem?_set_ne (by omega), List.getElem?_set_ne (by omega),
      List.getElem?_append, hti, if_pos hj, List.getElem?_take, if_pos hj]
  · rw [List.getElem?_append, hti, if_neg (by omega), hsplit, List.getElem?_append]
    rcases Nat.lt_or_ge j (i + 4) with hj4 | hj4
    · have hcase : j = i ∨ j = i + 1 ∨ j = i + 2 ∨ j = i + 3 := by omega
      rcases hcase with rfl | rfl | rfl | rfl
      · rw [List.getElem?_set_ne (by omega), List.getElem?_set_ne (by omega),
          List.getElem?_set_ne (by omega),
          List.getElem?_set_eq_of_lt _ (by omega)]
        simp
      · rw [List.getElem?_set_ne (by omega), List.getElem?_set_ne (by omega),
          List.getElem?_set_eq_of_lt _ (by simp only [List.length_set]; omega)]
        have hsub : i + 1 - i = 1 := by omega
        rw [hsub]
        simp
      · rw [List.getElem?_set_ne (by omega),
          List.getElem?_set_eq_of_lt _ (by simp only [List.length_set]; omega)]
        have hsub : i + 2 - i = 2 := by omega
        rw [hsub]
        simp
      · rw [List.getElem?_set_eq_of_lt _
            (by simp only [List.length_set]; omega)]
        have hsub : i + 3 - i = 3 := by omega
        rw [hsub]
        simp
    · rw [List.getElem?_set_ne (by omega), List.getElem?_set_ne (by omega),
        List.getElem?_set_ne (by omega), List.getElem?_set_ne (by omega),
        if_neg (by simp only [List.length_cons, List.length_nil]; omega)]
      simp only [List.length_cons, List.length_nil]
      rw [List.getElem?_drop]
      congr 1
      omega

lemma add_rect_eq (b : RectBatch) (r : Rect) (c : Vec4f)
    (h : b.next_rect * 4 + 4 ≤ b.vertices.length) :
    b.add_rect r c = some
      ({ b with
          vertices := b.vertices.take (b.next_rect * 4) ++ rectCorners r c 0
            ++ b.vertices.drop (b.next_rect * 4 + 4),
          next_rect := b.next_rect + 1 }, []) := by
  have h0 : b.next_rect * 4 + 0 < b.vertices.length := by omega
  have h1 : b.next_rect * 4 + 1 < b.vertices.length := by omega
  have h2 : b.next_rect * 4 + 2 < b.vertices.length := by omega
  have h3 : b.next_rect * 4 + 3 < b.vertices.length := by omega
  simp only [RectBatch.add_rect]
  rw [setChecked_pos _ h0]
  simp only [Option.bind_eq_bind, Option.some_bind]
  rw [setChecked_pos _ (by simp only [List.length_set]; exact h1)]
  simp only [Option.bind_eq_bind, Option.some_bind]
  rw [setChecked_pos _ (by simp only [List.length_set]; exact h2)]
  simp only [Option.bind_eq_bind, Option.some_bind]
  rw [setChecked_pos _ (by simp only [List.length_set]; exact h3)]
  simp only [Option.bind_eq_bind, Option.some_bind, Option.pure_def,
    Option.some.injEq, Prod.mk.injEq, and_true]
  simp only [Nat.add_zero]
  rw [set_quad _ _ _ _ _ _ (by omega)]
  simp [rectCorners, Rect.bounds]

lemma add_textured_rect_eq (b : RectBatch) (r : Rect) (t : Texture)
    (c : Vec4f) (h : b.next_rect * 4 + 4 ≤ b.vertices.length) :
    b.add_textured_rect r t c = some
      ({ b with
          vertices := b.vertices.take (b.next_rect * 4)
            ++ rectCorners r c (i32ofNat b.next_texture_slot)
            ++ b.vertices.drop (b.next_rect * 4 + 4),
          next_rect := b.next_rect + 1,
          next_texture_slot := b.next_texture_slot + 1 },
       [GpuCmd.bindTextureToSlot t (u32ofNat b.next_texture_slot)]) := by
  have h0 : b.next_rect * 4 + 0 < b.vertices.length := by omega
  have h1 : b.next_rect * 4 + 1 < b.vertices.length := by omega
  have h2 : b.next_rect * 4 + 2 < b.vertices.length := by omega
  have h3 : b.next_rect * 4 + 3 < b.vertices.length := by omega
  simp only [RectBatch.add_textured_rect]
  rw [setChecked_pos _ h0]
  simp only [Option.bind_eq_bind, Option.some_bind]
  rw [setChecked_pos _ (by simp only [List.length_set]; exact h1)]
  simp only [Option.bind_eq_bind, Option.some_bind]
  rw [setChecked_pos _ (by simp only [List.length_set]; exact h2)]
  simp only [Option.bind_eq_bind, Option.some_bind]
  rw [setChecked_pos _ (by simp only [List.length_set]; exact h3)]
  simp only [Option.bind_eq_bind, Option.some_bind, Option.pure_def,
    Option.some.injEq, Prod.mk.injEq, and_true]
  simp only [Nat.add_zero]
  rw [set_quad _ _ _ _ _ _ (by omega)]
  simp [rectCorners, Rect.bounds]

lemma add_rect_some_inv {b : RectBatch} {r : Rect} {c : Vec4f}
    {p : RectBatch × List GpuCmd} (h : b.add_rect r c = some p) :
    p.1.next_rect = b.next_rect + 1 ∧
    p.1.next_texture_slot = b.next_texture_slot ∧
    p.1.index_data = b.index_data ∧
    p.1.vertices.length = b.vertices.length ∧
    p.2 = [] := by
  simp only [RectBatch.add_rect, Option.bind_eq_bind, Option.bind_eq_some,
    Option.pure_def, Option.some.injEq] at h
  obtain ⟨v0, hv0, v1, hv1, v2, hv2, v3, hv3, hp⟩ := h
  obtain ⟨hw0, hl0⟩ := setChecked_some_inv hv0
  obtain ⟨hw1, hl1⟩ := setChecked_some_inv hv1
  obtain ⟨hw2, hl2⟩ := setChecked_some_inv hv2
  obtain ⟨hw3, hl3⟩ := setChecked_some_inv hv3
  subst hp
  refine ⟨rfl, rfl, rfl, ?_, rfl⟩
  simp only []
  omega

lemma add_textured_rect_some_inv {b : RectBatch} {r : Rect} {t : Texture}
    {c : Vec4f} {p : RectBatch × List GpuCmd}
    (h : b.add_textured_rect r t c = some p) :
    p.1.next_rect = b.next_rect + 1 ∧
    p.1.next_texture_slot = b.next_texture_slot + 1 ∧
    p.1.index_data = b.index_data ∧
    p.1.vertices.length = b.vertices.length ∧
    p.2 = [GpuCmd.bindTextureToSlot t (u32ofNat b.next_texture_slot)] := by
  simp only [RectBatch.add_textured_rect, Option.bind_eq_bind,
    Option.bind_eq_some, Option.pure_def, Option.some.injEq] at h
  obtain ⟨v0, hv0, v1, hv1, v2, hv2, v3, hv3, hp⟩ := h
  obtain ⟨hw0, hl0⟩ := setChecked_some_inv hv0
  obtain ⟨hw1, hl1⟩ := setChecked_some_inv hv1
  obtain ⟨hw2, hl2⟩ := setChecked_some_inv hv2
  obtain ⟨hw3, hl3⟩ := setChecked_some_inv hv3
  subst hp
  refine ⟨rfl, rfl, rfl, ?_, rfl⟩
  simp only []
  omega

lemma rectCorners_length (r : Rect) (c : Vec4f) (s : ℤ) :
    (rectCorners r c s).length = 4 := by
  simp [rectCorners]

lemma specVerts_length (t : ℕ) (ops : List BatchOp) :
    (specVerts t ops).length = 4 * ops.length := by
  induction ops generalizing t with
  | nil => simp [specVerts]
  | cons op ops ih =>
    cases op with
    | rect r c =>
      simp only [specVerts, List.length_append, rectCorners_length, ih,
        List.length_cons]
      omega
    | textured r tex tint =>
      simp only [specVerts, List.length_append, rectCorners_length, ih,
        List.length_cons]
      omega

lemma runOps_eq (ops : List BatchOp) : ∀ (b : RectBatch),
    b.next_rect * 4 + 4 * ops.length ≤ b.vertices.length →
    runOps b ops = some
      ({ b with
          vertices := b.vertices.take (b.next_rect * 4)
            ++ specVerts b.next_texture_slot ops
            ++ b.vertices.drop (b.next_rect * 4 + 4 * ops.length),
          next_rect := b.next_rect + ops.length,
          next_texture_slot := b.next_texture_slot + texCount ops },
       specTrace b.next_texture_slot ops) := by
  induction ops with
  | nil =>
    intro b h
    simp [runOps, specVerts, specTrace, texCount, List.take_append_drop]
  | cons op ops ih =>
    intro b h
    have hlen4 : b.next_rect * 4 + 4 ≤ b.vertices.length := by
      simp only [List.length_cons] at h
      omega
    have hTD : ∀ (mid : List RectVertex), mid.length = 4 →
        (b.vertices.take (b.next_rect * 4) ++ mid
          ++ b.vertices.drop (b.next_rect * 4 + 4)).length
          = b.vertices.length := by
      intro mid hmid
      simp only [List.length_append, List.length_take, List.length_drop, hmid]
      omega
    cases op with
    | rect r c =>
      rw [show runOps b (BatchOp.rect r c :: ops) = do
            let (b1, tr1) ← applyOp b (BatchOp.rect r c)
            let (b2, tr2) ← runOps b1 ops
            pure (b2, tr1 ++ tr2) from rfl]
      simp only [applyOp]
      rw [add_rect_eq b r c hlen4]
      simp only [Option.bind_eq_bind, Option.some_bind]
      rw [ih _ (by
        simp only [List.length_cons] at h
        rw [hTD _ (rectCorners_length r c 0)]
        simp only []
        omega)]
      simp only [Option.some_bind, Option.pure_def, Option.some.injEq,
        Prod.mk.injEq, specTrace, specVerts, texCount, List.nil_append,
        List.length_cons]
      constructor
      · simp only [RectBatch.mk.injEq]
        refine ⟨?_, by omega, by trivial, by trivial⟩
        rw [← List.append_assoc]
        have hX : (b.vertices.take (b.next_rect * 4)
            ++ rectCorners r c 0).length = (b.next_rect + 1) * 4 := by
          simp only [List.length_append, List.length_take, rectCorners_length]
          omega
        rw [List.take_left' hX]
        have hD : (b.next_rect + 1) * 4 + 4 * ops.length
            = (b.vertices.take (b.next_rect * 4) ++ rectCorners r c 0).length
              + 4 * ops.length := by
          omega
        rw [hD, List.drop_append, List.drop_drop]
        rw [show b.next_rect * 4 + 4 + 4 * ops.length
            = b.next_rect * 4 + 4 * (ops.length + 1) from by omega]
      · trivial
    | textured r tex tint =>
      rw [show runOps b (BatchOp.textured r tex tint :: ops) = do
            let (b1, tr1) ← applyOp b (BatchOp.textured r tex tint)
            let (b2, tr2) ← runOps b1 ops
            pure (b2, tr1 ++ tr2) from rfl]
      simp only [applyOp]
      rw [add_textured_rect_eq b r tex tint hlen4]
      simp only [Option.bind_eq_bind, Option.some_bind]
      rw [ih _ (by
        simp only [List.length_cons] at h
        rw [hTD _ (rectCorners_length r tint (i32ofNat b.next_texture_slot))]
        simp only []
        omega)]
      simp only [Option.some_bind, Option.pure_def, Option.some.injEq,
        Prod.mk.injEq, specTrace, specVerts, texCount, List.singleton_append,
        List.length_cons]
      constructor
      · simp only [RectBatch.mk.injEq]
        refine ⟨?_, by omega, by omega, by trivial⟩
        rw [← List.append_assoc]
        have hX : (b.vertices.take (b.next_rect * 4)
            ++ rectCorners r tint (i32ofNat b.next_texture_slot)).length
            = (b.next_rect + 1) * 4 := by
          simp only [List.length_append, List.length_take, rectCorners_length]
          omega
        rw [List.take_left' hX]
        have hD : (b.next_rect + 1) * 4 + 4 * ops.length
            = (b.vertices.take (b.next_rect * 4)
                ++ rectCorners r tint (i32ofNat b.next_texture_slot)).length
              + 4 * ops.length := by
          omega
        rw [hD, List.drop_append, List.drop_drop]
        rw [show b.next_rect * 4 + 4 + 4 * ops.length
            = b.next_rect * 4 + 4 * (ops.length + 1) from by omega]
      · trivial

lemma indicesAfter_succ (n : ℕ) :
    indicesAfter (n + 1) = writeRectIndices (indicesAfter n) n := by
  unfold indicesAfter
  rw [show List.range (n + 1) = List.range n ++ [n] by exact List.range_succ n,
    List.foldl_append]
  rfl

lemma indicesAfter_length (n : ℕ) :
    (indicesAfter n).length = MAX_INDICES_IN_BATCH := by
  induction n with
  | zero => simp [indicesAfter]
  | succ n ih =>
    rw [indicesAfter_succ]
    unfold writeRectIndices
    simp only [List.length_set]
    exact ih

lemma writeRectIndices_lt {l : List ℕ} {i j : ℕ} (h : j < i * 6) :
    (writeRectIndices l i)[j]? = l[j]? := by
  unfold writeRectIndices
  rw [List.getElem?_set_ne (by omega), List.getElem?_set_ne (by omega),
    List.getElem?_set_ne (by omega), List.getElem?_set_ne (by omega),
    List.getElem?_set_ne (by omega), List.getElem?_set_ne (by omega)]

lemma writeRectIndices_self (l : List ℕ) (i : ℕ) (h : i * 6 + 6 ≤ l.length) :
    (writeRectIndices l i)[i * 6 + 0]? = some (i * 4 + 0) ∧
    (writeRectIndices l i)[i * 6 + 1]? = some (i * 4 + 1) ∧
    (writeRectIndices l i)[i * 6 + 2]? = some (i * 4 + 2) ∧
    (writeRectIndices l i)[i * 6 + 3]? = some (i * 4 + 0) ∧
    (writeRectIndices l i)[i * 6 + 4]? = some (i * 4 + 2) ∧
    (writeRectIndices l i)[i * 6 + 5]? = some (i * 4 + 3) := by
  unfold writeRectIndices
  refine ⟨?_, ?_, ?_, ?_, ?_, ?_⟩
  · rw [List.getElem?_set_ne (by omega), List.getElem?_set_ne (by omega),
      List.getElem?_set_ne (by omega), List.getElem?_set_ne (by omega),
      List.getElem?_set_ne (by omega),
      List.getElem?_set_eq_of_lt _ (by omega)]
  · rw [List.getElem?_set_ne (by omega), List.getElem?_set_ne (by omega),
      List.getElem?_set_ne (by omega), List.getElem?_set_ne (by omega),
      List.getElem?_set_eq_of_lt _ (by simp only [List.length_set]; omega)]
  · rw [List.getElem?_set_ne (by omega), List.getElem?_set_ne (by omega),
      List.getElem?_set_ne (by omega),
      List.getElem?_set_eq_of_lt _ (by simp only [List.length_set]; omega)]
  · rw [List.getElem?_set_ne (by omega), List.getElem?_set_ne (by omega),
      List.getElem?_set_eq_of_lt _ (by simp only [List.length_set]; omega)]
  · rw [List.getElem?_set_ne (by omega),
      List.getElem?_set_eq_of_lt _ (by simp only [List.length_set]; omega)]
  · rw [List.getElem?_set_eq_of_lt _ (by simp only [List.length_set]; omega)]

lemma indicesAfter_spec : ∀ n, n ≤ MAX_RECTS_IN_BATCH → ∀ i, i < n →
    (indicesAfter n)[i * 6 + 0]? = some (i * 4 + 0) ∧
    (indicesAfter n)[i * 6 + 1]? = some (i * 4 + 1) ∧
    (indicesAfter n)[i * 6 + 2]? = some (i * 4 + 2) ∧
    (indicesAfter n)[i * 6 + 3]? = some (i * 4 + 0) ∧
    (indicesAfter n)[i * 6 + 4]? = some (i * 4 + 2) ∧
    (indicesAfter n)[i * 6 + 5]? = some (i * 4 + 3) := by
  intro n
  induction n with
  | zero =>
    intro _ i hi
    omega
  | succ n ih =>
    intro hn i hi
    rcases Nat.lt_or_ge i n with hlt | hge
    · have hprev := ih (by omega) i hlt
      rw [indicesAfter_succ]
      refine ⟨?_, ?_, ?_, ?_, ?_, ?_⟩
      · rw [writeRectIndices_lt (by omega)]
        exact hprev.1
      · rw [writeRectIndices_lt (by omega)]
        exact hprev.2.1
      · rw [writeRectIndices_lt (by omega)]
        exact hprev.2.2.1
      · rw [writeRectIndices_lt (by omega)]
        exact hprev.2.2.2.1
      · rw [writeRectIndices_lt (by omega)]
        exact hprev.2.2.2.2.1
      · rw [writeRectIndices_lt (by omega)]
        exact hprev.2.2.2.2.2
    · have hieq : i = n := by omega
      subst hieq
      rw [indicesAfter_succ]
      exact writeRectIndices_self _ _ (by
        rw [indicesAfter_length]
        unfold MAX_INDICES_IN_BATCH MAX_RECTS_IN_BATCH
        unfold MAX_RECTS_IN_BATCH at hn
        omega)

lemma buildIndices_spec (i : ℕ) (hi : i < MAX_RECTS_IN_BATCH) :
    buildIndices[i * 6 + 0]? = some (i * 4 + 0) ∧
    buildIndices[i * 6 + 1]? = some (i * 4 + 1) ∧
    buildIndices[i * 6 + 2]? = some (i * 4 + 2) ∧
    buildIndices[i * 6 + 3]? = some (i * 4 + 0) ∧
    buildIndices[i * 6 + 4]? = some (i * 4 + 2) ∧
    buildIndices[i * 6 + 5]? = some (i * 4 + 3) :=
  indicesAfter_spec MAX_RECTS_IN_BATCH (le_refl _) i hi

lemma applyCall_inv {b : RectBatch} {call : BatchCall}
    {p : RectBatch × List GpuCmd} (h : applyCall b call = some p) :
    p.1.index_data = b.index_data ∧
    ∀ cmd ∈ p.2, cmd.isIndexUpload = false := by
  cases call with
  | reset =>
    simp only [applyCall, Option.some.injEq] at h
    subst h
    exact ⟨rfl, by intro cmd hc; simp at hc⟩
  | draw =>
    simp only [applyCall, Option.some.injEq] at h
    subst h
    refine ⟨rfl, ?_⟩
    intro cmd hc
    simp only [RectBatch.draw, List.mem_cons, List.mem_singleton] at hc
    rcases hc with rfl | rfl | hc
    · rfl
    · rfl
    · simp at hc
  | rect r c =>
    have hinv := add_rect_some_inv (h := h)
    refine ⟨hinv.2.2.1, ?_⟩
    intro cmd hc
    rw [hinv.2.2.2.2] at hc
    simp at hc
  | textured r t c =>
    have hinv := add_textured_rect_some_inv (h := h)
    refine ⟨hinv.2.2.1, ?_⟩
    intro cmd hc
    rw [hinv.2.2.2.2] at hc
    simp only [List.mem_singleton] at hc
    subst hc
    rfl

lemma runCalls_inv : ∀ (calls : List BatchCall) (b : RectBatch)
    (p : RectBatch × List GpuCmd), runCalls b calls = some p →
    p.1.index_data = b.index_data ∧
    ∀ cmd ∈ p.2, cmd.isIndexUpload = false := by
  intro calls
  induction calls with
  | nil =>
    intro b p h
    simp only [runCalls, Option.some.injEq] at h
    subst h
    exact ⟨rfl, by intro cmd hc; simp at hc⟩
  | cons c cs ih =>
    intro b p h
    rw [show runCalls b (c :: cs) = do
          let (b1, tr1) ← applyCall b c
          let (b2, tr2) ← runCalls b1 cs
          pure (b2, tr1 ++ tr2) from rfl] at h
    simp only [Option.bind_eq_bind, Option.bind_eq_some, Option.pure_def,
      Option.some.injEq] at h
    obtain ⟨⟨b1, tr1⟩, h1, ⟨b2, tr2⟩, h2, hp⟩ := h
    subst hp
    have ha := applyCall_inv (h := h1)
    have hb := ih b1 _ h2
    refine ⟨by rw [hb.1, ha.1], ?_⟩
    intro cmd hc
    simp only [List.mem_append] at hc
    rcases hc with hc | hc
    · exact ha.2 cmd hc
    · exact hb.2 cmd hc

lemma texList_length (ops : List BatchOp) :
    (texList ops).length = texCount ops := by
  induction ops with
  | nil => rfl
  | cons op ops ih =>
    cases op with
    | rect r c => simpa [texList, texCount] using ih
    | textured r t c => simpa [texList, texCount] using ih

lemma specTrace_getElem? (ops : List BatchOp) : ∀ (t j : ℕ),
    (specTrace t ops)[j]? = ((texList ops)[j]?).map
      (fun tex => GpuCmd.bindTextureToSlot tex (u32ofNat (t + j))) := by
  induction ops with
  | nil =>
    intro t j
    simp [specTrace, texList]
  | cons op ops ih =>
    intro t j
    cases op with
    | rect r c =>
      simpa [specTrace, texList] using ih t j
    | textured r tex tint =>
      cases j with
      | zero => simp [specTrace, texList]
      | succ j =>
        simp only [specTrace, texList, List.getElem?_cons_succ]
        rw [ih (t + 1) j]
        have harith : t + 1 + j = t + (j + 1) := by omega
        rw [harith]

lemma specTrace_length (ops : List BatchOp) : ∀ t : ℕ,
    (specTrace t ops).length = texCount ops := by
  induction ops with
  | nil => intro t; rfl
  | cons op ops ih =>
    intro t
    cases op with
    | rect r c => simpa [specTrace, texCount] using ih t
    | textured r tex tint => simpa [specTrace, texCount] using ih (t + 1)

lemma texCount_le_length (ops : List BatchOp) : texCount ops ≤ ops.length := by
  induction ops with
  | nil => simp [texCount]
  | cons op ops ih =>
    cases op with
    | rect r c =>
      simp only [texCount, List.length_cons]
      omega
    | textured r t c =>
      simp only [texCount, List.length_cons]
      omega

lemma specVerts_segment : ∀ (ops : List BatchOp) (t j : ℕ) (op : BatchOp),
    ops[j]? = some op →
    ((specVerts t ops).drop (j * 4)).take 4 =
      (match op with
       | .rect r c => rectCorners r c 0
       | .textured r _ tint =>
           rectCorners r tint (i32ofNat (t + texCount (ops.take j)))) := by
  intro ops
  induction ops with
  | nil =>
    intro t j op h
    simp at h
  | cons op0 ops ih =>
    intro t j op h
    cases j with
    | zero =>
      simp only [List.getElem?_cons_zero, Option.some.injEq] at h
      subst h
      cases op0 with
      | rect r c =>
        simp only [specVerts, Nat.zero_mul, List.drop_zero, List.take_nil,
          List.take_zero, texCount]
        rw [List.take_left' (rectCorners_length r c 0)]
      | textured r tex tint =>
        simp only [specVerts, Nat.zero_mul, List.drop_zero, List.take_zero,
          texCount]
        rw [List.take_left' (rectCorners_length r tint (i32ofNat t))]
        simp [texCount]
    | succ j =>
      simp only [List.getElem?_cons_succ] at h
      cases op0 with
      | rect r0 c0 =>
        simp only [specVerts]
        rw [show (j + 1) * 4 = (rectCorners r0 c0 0).length + j * 4 by
          rw [rectCorners_length]; ring]
        rw [List.drop_append]
        rw [ih t j op h]
        cases op with
        | rect r c => rfl
        | textured r tex tint =>
          simp only [List.take_succ_cons, texCount]
      | textured r0 tex0 tint0 =>
        simp only [specVerts]
        rw [show (j + 1) * 4
            = (rectCorners r0 tint0 (i32ofNat t)).length + j * 4 by
          rw [rectCorners_length]; ring]
        rw [List.drop_append]
        rw [ih (t + 1) j op h]
        cases op with
        | rect r c => rfl
        | textured r tex tint =>
          simp only [List.take_succ_cons, texCount]
          rw [show t + 1 + texCount (ops.take j)
              = t + (texCount (ops.take j) + 1) by omega]

lemma setChecked_neg {l : List RectVertex} {i : ℕ} (v : RectVertex)
    (h : ¬ i < l.length) : setChecked l i v = none := by
  unfold setChecked
  exact if_neg h

lemma sum_take_mono (l : List BufferAttribute) (i j : ℕ) (hij : i ≤ j) :
    ((l.take i).map (fun a => a.attribute_type.size)).sum ≤
    ((l.take j).map (fun a => a.attribute_type.size)).sum := by
  have h1 : l.take i = (l.take j).take i := by
    rw [List.take_take, Nat.min_eq_left hij]
  rw [h1]
  conv_rhs => rw [← List.take_append_drop i (l.take j)]
  rw [List.map_append, List.sum_append]
  exact Nat.le_add_right _ _

lemma layoutLoop_spec (l : List BufferAttribute) : ∀ (k : ℕ) (o : List ℕ)
    (acc : ℕ) (res : List ℕ × ℕ),
    res = (l.enumFrom k).foldl
        (fun a p => (a.1.set p.1 a.2, a.2 + p.2.attribute_type.size))
        (o, acc) →
    k + l.length ≤ o.length →
    res.2 = acc + (l.map (fun a => a.attribute_type.size)).sum ∧
    res.1.length = o.length ∧
    (∀ j, j < k → res.1[j]? = o[j]?) ∧
    (∀ i, i < l.length → res.1[k + i]?
      = some (acc + ((l.take i).map (fun a => a.attribute_type.size)).sum)) := by
  induction l with
  | nil =>
    intro k o acc res hres hlen
    simp only [List.enumFrom, List.foldl_nil] at hres
    subst hres
    refine ⟨by simp, rfl, fun j _ => rfl, fun i hi => by simp at hi⟩
  | cons a l ih =>
    intro k o acc res hres hlen
    simp only [List.enumFrom, List.foldl_cons] at hres
    have hih := ih (k + 1) (o.set k acc) (acc + a.attribute_type.size) res
      hres (by simp only [List.length_set]; simp only [List.length_cons] at hlen; omega)
    obtain ⟨hsum, hlen2, hlow, hpos⟩ := hih
    refine ⟨?_, ?_, ?_, ?_⟩
    · rw [hsum]
      simp only [List.map_cons, List.sum_cons]
      omega
    · rw [hlen2, List.length_set]
    · intro j hj
      rw [hlow j (by omega), List.getElem?_set_ne (by omega)]
    · intro i hi
      cases i with
      | zero =>
        rw [show k + 0 = k by omega]
        rw [hlow k (by omega),
          List.getElem?_set_eq_of_lt _ (by simp only [List.length_cons] at hlen; omega)]
        simp
      | succ i =>
        rw [show k + (i + 1) = k + 1 + i by omega]
        rw [hpos i (by simp only [List.length_cons] at hi; omega)]
        congr 1
        simp only [List.take_succ_cons, List.map_cons, List.sum_cons]
        omega

/-- C1: for every sequence of `N ≤ MAX_RECTS_IN_BATCH` accumulation calls
between `reset()` and `draw()`, `draw()` uploads exactly the `4·N` freshly
written vertex records (`N × 4 × size_of(RectVertex)` bytes, content a
function of the requests alone, hence no stale data) and issues exactly one
indexed draw call for `6·N` indices (index-count `0` when `N = 0`). -/
theorem C1_draw_uploads_live_region (b : RectBatch) (ops : List BatchOp)
    (hlen : b.vertices.length = MAX_VERTS_IN_BATCH)
    (hN : ops.length ≤ MAX_RECTS_IN_BATCH) :
    (runOps b.reset ops).map (fun p => (p.1.draw).2)
      = some [GpuCmd.uploadVertexData (specVerts 1 ops)
          (sizeOfRectVertex * 4 * ops.length),
        GpuCmd.drawElements (6 * ops.length)] ∧
    (specVerts 1 ops).length = 4 * ops.length ∧
    (runOps b.reset ops).map
        (fun p => (p.1.draw).2.countP (fun cmd => cmd.isDrawCall)) = some 1 := by
  have hpre : (b.reset).next_rect * 4 + 4 * ops.length
      ≤ (b.reset).vertices.length := by
    simp only [RectBatch.reset]
    rw [hlen]
    unfold MAX_VERTS_IN_BATCH
    unfold MAX_RECTS_IN_BATCH at hN ⊢
    omega
  rw [runOps_eq ops (b.reset) hpre]
  simp only [Option.map_some', RectBatch.reset, RectBatch.draw, Nat.zero_mul,
    Nat.zero_add, List.take_zero, List.nil_append, Option.some.injEq]
  refine ⟨?_, specVerts_length 1 ops, ?_⟩
  · rw [List.take_left' (specVerts_length 1 ops)]
    rw [u32ofNat_eq (by unfold MAX_RECTS_IN_BATCH at hN; omega)]
    rw [Nat.mul_comm ops.length 6]
  · rfl

/-- C2: `add_rect(rect, color)` writes exactly four records at positions
`4·next_rect .. 4·next_rect + 3`, in order bottom-left, bottom-right,
top-right, top-left, with bounds derived from position/size/pivot, `z` taken
from `rect.position.z` for all corners, UVs `uv_min`, `(uv_max.x, uv_min.y)`,
`uv_max`, `(uv_min.x, uv_max.y)`, the given color uniformly and slot `0`,
leaving the rest of the staging array unchanged and incrementing
`next_rect` by exactly one. -/
theorem C2_add_rect_corners (b : RectBatch) (r : Rect) (color : Vec4f)
    (h : b.next_rect * 4 + 4 ≤ b.vertices.length) :
    b.add_rect r color = some
      ({ b with
          vertices := b.vertices.take (b.next_rect * 4)
            ++ rectCorners r color 0
            ++ b.vertices.drop (b.next_rect * 4 + 4),
          next_rect := b.next_rect + 1 }, []) ∧
    rectCorners r color 0 =
      [RectVertex.new
        (Vec3f.new (r.position.x - r.size.x * r.pivot.x)
          (r.position.y - r.size.y * r.pivot.y) r.position.z)
        r.uv_min color 0,
       RectVertex.new
        (Vec3f.new (r.position.x + r.size.x * (1 - r.pivot.x))
          (r.position.y - r.size.y * r.pivot.y) r.position.z)
        (Vec2f.new r.uv_max.x r.uv_min.y) color 0,
       RectVertex.new
        (Vec3f.new (r.position.x + r.size.x * (1 - r.pivot.x))
          (r.position.y + r.size.y * (1 - r.pivot.y)) r.position.z)
        r.uv_max color 0,
       RectVertex.new
        (Vec3f.new (r.position.x - r.size.x * r.pivot.x)
          (r.position.y + r.size.y * (1 - r.pivot.y)) r.position.z)
        (Vec2f.new r.uv_min.x r.uv_max.y) color 0] := by
  refine ⟨add_rect_eq b r color h, ?_⟩
  simp [rectCorners, Rect.left, Rect.right, Rect.top, Rect.bottom]

/-- C3: after `reset()`, the `i`-th (1-indexed) `add_textured_rect` call
assigns texture slot `i` to all four records it writes and eagerly emits the
texture-unit bind for slot `i` during accumulation (the draw trace contains
no binds); each call increments `next_texture_slot`; `add_rect` always
assigns slot `0`. -/
theorem C3_slot_sequencing (b : RectBatch) (ops : List BatchOp)
    (hlen : b.vertices.length = MAX_VERTS_IN_BATCH)
    (hN : ops.length ≤ MAX_RECTS_IN_BATCH) :
    (runOps b.reset ops).map (fun p => p.1.next_texture_slot)
      = some (1 + texCount ops) ∧
    (runOps b.reset ops).map (fun p => p.2) = some (specTrace 1 ops) ∧
    (∀ j tex, (texList ops)[j]? = some tex →
      (specTrace 1 ops)[j]? = some (GpuCmd.bindTextureToSlot tex (j + 1))) ∧
    (∀ j r c, ops[j]? = some (BatchOp.rect r c) →
      (runOps b.reset ops).map (fun p => (p.1.vertices.drop (j * 4)).take 4)
        = some (rectCorners r c 0)) ∧
    (∀ j r tex tint, ops[j]? = some (BatchOp.textured r tex tint) →
      (runOps b.reset ops).map (fun p => (p.1.vertices.drop (j * 4)).take 4)
        = some (rectCorners r tint ((1 + texCount (ops.take j) : ℕ) : ℤ))) ∧
    (∀ p, runOps b.reset ops = some p → ∀ cmd ∈ (p.1.draw).2,
      cmd.isTextureBind = false) := by
  have hpre : (b.reset).next_rect * 4 + 4 * ops.length
      ≤ (b.reset).vertices.length := by
    simp only [RectBatch.reset]
    rw [hlen]
    unfold MAX_VERTS_IN_BATCH
    unfold MAX_RECTS_IN_BATCH at hN ⊢
    omega
  have hrun := runOps_eq ops (b.reset) hpre
  have hseg : ∀ j (op : BatchOp), ops[j]? = some op →
      (((b.reset.vertices.take (b.reset.next_rect * 4)
          ++ specVerts b.reset.next_texture_slot ops
          ++ b.reset.vertices.drop (b.reset.next_rect * 4 + 4 * ops.length)
          ).drop (j * 4)).take 4)
        = (match op with
           | .rect r c => rectCorners r c 0
           | .textured r _ tint =>
               rectCorners r tint (i32ofNat (1 + texCount (ops.take j)))) := by
    intro j op hop
    have hj : j < ops.length := by
      by_contra hcon
      rw [List.getElem?_eq_none (by omega)] at hop
      cases hop
    simp only [RectBatch.reset, Nat.zero_mul, List.take_zero, List.nil_append]
    rw [List.drop_append_of_le_length (by rw [specVerts_length]; omega)]
    rw [List.take_append_of_le_length (by
      rw [List.length_drop, specVerts_length]
      omega)]
    rw [specVerts_segment ops 1 j op hop]
  rw [hrun]
  refine ⟨?_, rfl, ?_, ?_, ?_, ?_⟩
  · simp [RectBatch.reset, Option.map_some']
  · intro j tex htex
    have hj : j < (texList ops).length := by
      by_contra hcon
      rw [List.getElem?_eq_none (by omega)] at htex
      cases htex
    rw [texList_length] at hj
    have hjlen : j < ops.length := by
      have := texCount_le_length ops
      omega
    rw [specTrace_getElem?, htex]
    simp only [Option.map_some', Option.some.injEq]
    rw [u32ofNat_eq (by unfold MAX_RECTS_IN_BATCH at hN; omega)]
    rw [Nat.add_comm 1 j]
  · intro j r c hop
    simp only [Option.map_some', Option.some.injEq]
    exact hseg j _ hop
  · intro j r tex tint hop
    simp only [Option.map_some', Option.some.injEq]
    rw [hseg j _ hop]
    rw [i32ofNat_eq (by
      have h1 := texCount_le_length (ops.take j)
      have h2 : (ops.take j).length ≤ ops.length := by
        rw [List.length_take]
        omega
      unfold MAX_RECTS_IN_BATCH at hN
      omega)]
  · intro p hp cmd hc
    rw [Option.some.injEq] at hp
    subst hp
    simp only [RectBatch.draw, List.mem_cons, List.mem_singleton] at hc
    rcases hc with rfl | rfl | hc
    · rfl
    · rfl
    · simp at hc

/-- C4 (amended): `reset` establishes `1 ≤ next_texture_slot ≤
MAX_TEXTURE_SLOTS`; `draw` and `add_rect` never change `next_texture_slot`;
`add_textured_rect` increments it by exactly one and performs no capacity
check — it succeeds whenever the four vertex stores are in bounds — so the
invariant is preserved only when `next_texture_slot < MAX_TEXTURE_SLOTS`
held before the call. -/
theorem C4_amended_slot_behaviour (b : RectBatch) :
    (1 ≤ (b.reset).next_texture_slot ∧
      (b.reset).next_texture_slot ≤ MAX_TEXTURE_SLOTS) ∧
    (b.draw).1.next_texture_slot = b.next_texture_slot ∧
    (∀ r c p, b.add_rect r c = some p →
      p.1.next_texture_slot = b.next_texture_slot) ∧
    (∀ r t c p, b.add_textured_rect r t c = some p →
      p.1.next_texture_slot = b.next_texture_slot + 1) ∧
    (∀ (r : Rect) (t : Texture) (c : Vec4f),
      b.next_rect * 4 + 4 ≤ b.vertices.length →
      ∃ p, b.add_textured_rect r t c = some p) ∧
    (∀ r t c p, b.add_textured_rect r t c = some p →
      1 ≤ b.next_texture_slot ∧ b.next_texture_slot < MAX_TEXTURE_SLOTS →
      1 ≤ p.1.next_texture_slot ∧
        p.1.next_texture_slot ≤ MAX_TEXTURE_SLOTS) := by
  refine ⟨by simp [RectBatch.reset, MAX_TEXTURE_SLOTS], rfl, ?_, ?_, ?_, ?_⟩
  · intro r c p hp
    exact (add_rect_some_inv (h := hp)).2.1
  · intro r t c p hp
    exact (add_textured_rect_some_inv (h := hp)).2.1
  · intro r t c h
    exact ⟨_, add_textured_rect_eq b r t c h⟩
  · intro r t c p hp hin
    have hinc := (add_textured_rect_some_inv (h := hp)).2.1
    omega

/-- C4 (counterexample): a whole batch window of `MAX_TEXTURE_SLOTS` (= 32)
`add_textured_rect` calls after a `reset()` succeeds with no failure and
leaves `next_texture_slot = 33 > MAX_TEXTURE_SLOTS`: the code does not
preserve the claimed invariant and does not fail fast on texture-slot
capacity overflow. -/
theorem C4_counterexample_silent_overflow :
    (runOps (RectBatch.new.1.reset)
        (List.replicate MAX_TEXTURE_SLOTS
          (BatchOp.textured exampleRect exampleTexture exampleColor))).map
      (fun p => p.1.next_texture_slot) = some (MAX_TEXTURE_SLOTS + 1) ∧
    ¬ (MAX_TEXTURE_SLOTS + 1 ≤ MAX_TEXTURE_SLOTS) := by
  constructor
  · rw [runOps_eq _ _ (by
      have hv : (RectBatch.new.1.reset).vertices.length = MAX_VERTS_IN_BATCH :=
        List.length_replicate _ _
      have hn : (RectBatch.new.1.reset).next_rect = 0 := rfl
      rw [hv, hn, List.length_replicate]
      decide)]
    rw [Option.map_some']
    rw [Option.some.injEq]
    decide
  · decide

/-- C5: calling `add_rect` or `add_textured_rect` with
`next_rect = MAX_RECTS_IN_BATCH` fails (the embedded panic: `none`) before
writing anything, and no successful accumulation call ever changes the
length of the staging array (all writes stay inside its
`4 × MAX_RECTS_IN_BATCH` records). -/
theorem C5_rect_overflow_fails (b : RectBatch) (r : Rect) (c : Vec4f)
    (t : Texture) (tint : Vec4f)
    (hlen : b.vertices.length = MAX_VERTS_IN_BATCH)
    (hfull : b.next_rect = MAX_RECTS_IN_BATCH) :
    b.add_rect r c = none ∧
    b.add_textured_rect r t tint = none ∧
    (∀ (b2 : RectBatch) (r2 : Rect) (c2 : Vec4f)
        (p : RectBatch × List GpuCmd),
      b2.add_rect r2 c2 = some p →
      p.1.vertices.length = b2.vertices.length) ∧
    (∀ (b2 : RectBatch) (r2 : Rect) (t2 : Texture) (c2 : Vec4f)
        (p : RectBatch × List GpuCmd),
      b2.add_textured_rect r2 t2 c2 = some p →
      p.1.vertices.length = b2.vertices.length) := by
  have hnlt : ¬ b.next_rect * 4 + 0 < b.vertices.length := by
    rw [hlen, hfull]
    unfold MAX_VERTS_IN_BATCH
    omega
  refine ⟨?_, ?_, ?_, ?_⟩
  · simp only [RectBatch.add_rect]
    rw [setChecked_neg _ hnlt]
    rfl
  · simp only [RectBatch.add_textured_rect]
    rw [setChecked_neg _ hnlt]
    rfl
  · intro b2 r2 c2 p hp
    exact (add_rect_some_inv (h := hp)).2.2.2.1
  · intro b2 r2 t2 c2 p hp
    exact (add_textured_rect_some_inv (h := hp)).2.2.2.1

/-- C6: the index-buffer content is computed once at construction (the only
index upload is the one in the trace of `RectBatch::new`) and never changed by
any later sequence of `reset`/`draw`/`add` calls; the six indices of
rectangle slot `i` are `4i, 4i+1, 4i+2, 4i, 4i+2, 4i+3`. -/
theorem C6_static_index_pattern (calls : List BatchCall)
    (p : RectBatch × List GpuCmd)
    (h : runCalls RectBatch.new.1 calls = some p) :
    p.1.index_data = buildIndices ∧
    (∀ i, i < MAX_RECTS_IN_BATCH →
      p.1.index_data[i * 6 + 0]? = some (i * 4 + 0) ∧
      p.1.index_data[i * 6 + 1]? = some (i * 4 + 1) ∧
      p.1.index_data[i * 6 + 2]? = some (i * 4 + 2) ∧
      p.1.index_data[i * 6 + 3]? = some (i * 4 + 0) ∧
      p.1.index_data[i * 6 + 4]? = some (i * 4 + 2) ∧
      p.1.index_data[i * 6 + 5]? = some (i * 4 + 3)) ∧
    (∀ cmd ∈ p.2, cmd.isIndexUpload = false) ∧
    RectBatch.new.2
      = [GpuCmd.uploadIndexData buildIndices MAX_INDICES_IN_BATCH] := by
  have hinv := runCalls_inv calls RectBatch.new.1 p h
  have hid : p.1.index_data = buildIndices := by
    rw [hinv.1]
    simp only [RectBatch.new]
  refine ⟨hid, ?_, hinv.2, by simp only [RectBatch.new]⟩
  intro i hi
  rw [hid]
  exact buildIndices_spec i hi

/-- C7: `reset()` sets `next_rect = 0` and `next_texture_slot = 1`,
leaves the staging array and the GPU-side index data untouched, and emits
no GPU commands (no clearing, no reallocation). -/
theorem C7_reset_counter_rewind (b : RectBatch) :
    (b.reset).next_rect = 0 ∧
    (b.reset).next_texture_slot = 1 ∧
    (b.reset).vertices = b.vertices ∧
    (b.reset).index_data = b.index_data ∧
    applyCall b BatchCall.reset = some (b.reset, []) :=
  ⟨rfl, rfl, rfl, rfl, rfl⟩

/-- C8: `draw()` is read-only on the batch state: the state after `draw` is
exactly the state before, so a second `draw` without an intervening `reset`
issues exactly the same upload of `4·next_rect` records and the same
`6·next_rect`-index draw call. -/
theorem C8_draw_read_only (b : RectBatch) :
    (b.draw).1 = b ∧
    ((b.draw).1).draw = b.draw ∧
    (b.draw).2
      = [GpuCmd.uploadVertexData (b.vertices.take (4 * b.next_rect))
          (sizeOfRectVertex * 4 * b.next_rect),
        GpuCmd.drawElements (u32ofNat (b.next_rect * 6))] :=
  ⟨rfl, rfl, rfl⟩

/-- C9: `Renderer2D::new` creates the default texture as the 1×1
opaque-white texture built from pixel data `(255, 255, 255, 255)`;
`begin_batch` resets the owned `RectBatch` and binds that default texture to
texture slot 0 (and does nothing else to the state), and `end_batch` binds
the shared default shader, then delegates to `RectBatch::draw`, changing no
state — on every call. -/
theorem C9_renderer2d_batch_protocol (vp : Mat4f) (r2d : Renderer2D)
    (tr0 : List GpuCmd) (h : Renderer2D.new vp = some (r2d, tr0)) :
    r2d.default_texture = ⟨[255, 255, 255, 255], 1, 1⟩ ∧
    Texture.with_data [255, 255, 255, 255] 1 1 = some r2d.default_texture ∧
    (∀ s : Renderer2D, s.begin_batch
      = ({ s with rect_batch := s.rect_batch.reset },
         [GpuCmd.bindTextureToSlot s.default_texture 0])) ∧
    (∀ s : Renderer2D, s.end_batch
      = (s, GpuCmd.bindShader s.default_shader :: (s.rect_batch.draw).2)) := by
  simp [Renderer2D.new, Texture.with_data] at h
  obtain ⟨hr, htr⟩ := h
  subst hr
  refine ⟨rfl, ?_, fun s => rfl, fun s => rfl⟩
  simp [Texture.with_data]

/-- C10: `BufferLayout::new` keeps the attribute list, produces one offset
per attribute (`offsets[i]` = sum of the byte sizes of attributes `0..i-1`,
hence `offsets[0] = 0` and offsets are non-decreasing) and a stride equal to
the total byte size, with sizes `Float = 4`, `Vec2f = 8`, `Vec3f = 12`,
`Vec4f = 16`. -/
theorem C10_buffer_layout_offsets (attrs : List BufferAttribute) :
    (BufferLayout.new attrs).offsets.length = attrs.length ∧
    (∀ i, i < attrs.length → (BufferLayout.new attrs).offsets[i]?
      = some (((attrs.take i).map (fun a => a.attribute_type.size)).sum)) ∧
    (BufferLayout.new attrs).stride
      = (attrs.map (fun a => a.attribute_type.size)).sum ∧
    (∀ i j, i ≤ j →
      ((attrs.take i).map (fun a => a.attribute_type.size)).sum
        ≤ ((attrs.take j).map (fun a => a.attribute_type.size)).sum) ∧
    AttributeType.Float.size = 4 ∧ AttributeType.Vec2f.size = 8 ∧
    AttributeType.Vec3f.size = 12 ∧ AttributeType.Vec4f.size = 16 ∧
    (BufferLayout.new attrs).attributes = attrs := by
  have hspec := layoutLoop_spec attrs 0 (List.replicate attrs.length 0) 0
    (attrs.enum.foldl
      (fun a p => (a.1.set p.1 a.2, a.2 + p.2.attribute_type.size))
      (List.replicate attrs.length 0, 0))
    (by rfl) (by simp)
  obtain ⟨hsum, hlen, _, hpos⟩ := hspec
  refine ⟨?_, ?_, ?_, sum_take_mono attrs, rfl, rfl, rfl, rfl, rfl⟩
  · show (attrs.enum.foldl
      (fun a p => (a.1.set p.1 a.2, a.2 + p.2.attribute_type.size))
      (List.replicate attrs.length 0, 0)).1.length = attrs.length
    rw [hlen, List.length_replicate]
  · intro i hi
    show (attrs.enum.foldl
      (fun a p => (a.1.set p.1 a.2, a.2 + p.2.attribute_type.size))
      (List.replicate attrs.length 0, 0)).1[i]? = _
    have := hpos i hi
    rw [show (0 : ℕ) + i = i by omega] at this
    rw [this]
    rw [Nat.zero_add]
  · show (attrs.enum.foldl
      (fun a p => (a.1.set p.1 a.2, a.2 + p.2.attribute_type.size))
      (List.replicate attrs.length 0, 0)).2 = _
    rw [hsum, Nat.zero_add]

lemma new_batch_vertices : RectBatch.new.1.vertices
    = List.replicate MAX_VERTS_IN_BATCH RectVertex.default := rfl

lemma new_batch_vertices_length :
    RectBatch.new.1.vertices.length = MAX_VERTS_IN_BATCH := by
  rw [new_batch_vertices]
  exact List.length_replicate _ _

lemma new_batch_bound : RectBatch.new.1.next_rect * 4 + 4
    ≤ RectBatch.new.1.vertices.length := by
  rw [new_batch_vertices_length]
  rw [show RectBatch.new.1.next_rect = 0 from rfl]
  unfold MAX_VERTS_IN_BATCH MAX_RECTS_IN_BATCH
  omega

lemma fullBatch_vertices_length :
    fullBatch.vertices.length = MAX_VERTS_IN_BATCH := by
  rw [show fullBatch.vertices
      = List.replicate MAX_VERTS_IN_BATCH RectVertex.default from rfl]
  exact List.length_replicate _ _

/-- Witness for C1 at one `add_rect` request from the freshly constructed
batch. -/
theorem C1_witness :
    RectBatch.new.1.vertices.length = MAX_VERTS_IN_BATCH ∧
    [BatchOp.rect exampleRect exampleColor].length ≤ MAX_RECTS_IN_BATCH ∧
    (runOps RectBatch.new.1.reset [BatchOp.rect exampleRect exampleColor]).map
        (fun p => (p.1.draw).2)
      = some [GpuCmd.uploadVertexData
            (specVerts 1 [BatchOp.rect exampleRect exampleColor])
            (sizeOfRectVertex * 4 * [BatchOp.rect exampleRect exampleColor].length),
          GpuCmd.drawElements (6 * [BatchOp.rect exampleRect exampleColor].length)] :=
  ⟨new_batch_vertices_length, by decide,
   (C1_draw_uploads_live_region RectBatch.new.1
      [BatchOp.rect exampleRect exampleColor]
      new_batch_vertices_length (by decide)).1⟩

/-- Witness for C2 at the concrete example rectangle: the emitted
corner positions are `(0,0,0)`, `(200,0,0)`, `(200,100,0)`, `(0,100,0)`. -/
theorem C2_witness :
    RectBatch.new.1.next_rect * 4 + 4 ≤ RectBatch.new.1.vertices.length ∧
    RectBatch.new.1.add_rect exampleRect exampleColor = some
      ({ RectBatch.new.1 with
          vertices := RectBatch.new.1.vertices.take
              (RectBatch.new.1.next_rect * 4)
            ++ rectCorners exampleRect exampleColor 0
            ++ RectBatch.new.1.vertices.drop
              (RectBatch.new.1.next_rect * 4 + 4),
          next_rect := RectBatch.new.1.next_rect + 1 }, []) ∧
    (rectCorners exampleRect exampleColor 0).map RectVertex.position
      = [Vec3f.new 0 0 0, Vec3f.new 200 0 0, Vec3f.new 200 100 0,
         Vec3f.new 0 100 0] ∧
    (rectCorners exampleRect exampleColor 0).map RectVertex.uv
      = [Vec2f.new 0 0, Vec2f.new 1 0, Vec2f.new 1 1, Vec2f.new 0 1] :=
  ⟨new_batch_bound,
   (C2_add_rect_corners RectBatch.new.1 exampleRect exampleColor
      new_batch_bound).1,
   by
    simp only [rectCorners, RectVertex.new, List.map_cons, List.map_nil,
      exampleRect, Rect.new, Rect.left, Rect.right, Rect.top, Rect.bottom,
      Vec3f.new, Vec2f.new]
    norm_num,
   by
    simp only [rectCorners, RectVertex.new, List.map_cons, List.map_nil,
      exampleRect, Rect.new, Vec3f.new, Vec2f.new]⟩

/-- Witness for C3 at one `add_textured_rect` request: the resulting
`next_texture_slot` is `1 + 1 = 2`. -/
theorem C3_witness :
    RectBatch.new.1.vertices.length = MAX_VERTS_IN_BATCH ∧
    [BatchOp.textured exampleRect exampleTexture exampleColor].length
      ≤ MAX_RECTS_IN_BATCH ∧
    (runOps RectBatch.new.1.reset
        [BatchOp.textured exampleRect exampleTexture exampleColor]).map
      (fun p => p.1.next_texture_slot)
      = some (1 + texCount
          [BatchOp.textured exampleRect exampleTexture exampleColor]) :=
  ⟨new_batch_vertices_length, by decide,
   (C3_slot_sequencing RectBatch.new.1
      [BatchOp.textured exampleRect exampleTexture exampleColor]
      new_batch_vertices_length (by decide)).1⟩

/-- Witness for the amended C4: `add_textured_rect` succeeds on the fresh
batch. -/
theorem C4_amended_witness :
    RectBatch.new.1.next_rect * 4 + 4 ≤ RectBatch.new.1.vertices.length ∧
    (∃ p, RectBatch.new.1.add_textured_rect exampleRect exampleTexture
      exampleColor = some p) :=
  ⟨new_batch_bound,
   (C4_amended_slot_behaviour RectBatch.new.1).2.2.2.2.1
     exampleRect exampleTexture exampleColor new_batch_bound⟩

/-- Witness for C5 at a batch whose `next_rect` is at capacity: both
accumulation calls fail. -/
theorem C5_witness :
    fullBatch.vertices.length = MAX_VERTS_IN_BATCH ∧
    fullBatch.next_rect = MAX_RECTS_IN_BATCH ∧
    fullBatch.add_rect exampleRect exampleColor = none ∧
    fullBatch.add_textured_rect exampleRect exampleTexture exampleColor
      = none :=
  ⟨fullBatch_vertices_length, rfl,
   (C5_rect_overflow_fails fullBatch exampleRect exampleColor exampleTexture
      exampleColor fullBatch_vertices_length rfl).1,
   (C5_rect_overflow_fails fullBatch exampleRect exampleColor exampleTexture
      exampleColor fullBatch_vertices_length rfl).2.1⟩

/-- Witness for C6 at a `reset`-then-`draw` cycle. -/
theorem C6_witness :
    runCalls RectBatch.new.1 [BatchCall.reset, BatchCall.draw]
      = some (RectBatch.new.1.reset, (RectBatch.new.1.reset.draw).2) ∧
    (RectBatch.new.1.reset).index_data = buildIndices :=
  ⟨rfl, (C6_static_index_pattern [BatchCall.reset, BatchCall.draw] _ rfl).1⟩

/-- Witness for C7 at the freshly constructed batch. -/
theorem C7_witness : (RectBatch.new.1.reset).next_rect = 0 :=
  (C7_reset_counter_rewind RectBatch.new.1).1

/-- Witness for C8 at the capacity-full batch state. -/
theorem C8_witness : (fullBatch.draw).1 = fullBatch :=
  (C8_draw_read_only fullBatch).1

/-- Witness for C9 at a concrete view-projection matrix. -/
theorem C9_witness :
    Renderer2D.new (Mat4f.mk (List.replicate 16 0))
      = some (⟨⟨VERTEX_SHADER, FRAGMENT_SHADER⟩,
          ⟨[255, 255, 255, 255], 1, 1⟩, RectBatch.new.1⟩,
        [GpuCmd.bindShader ⟨VERTEX_SHADER, FRAGMENT_SHADER⟩,
         GpuCmd.setUniformMat4 "u_view_projection"
           (Mat4f.mk (List.replicate 16 0)),
         GpuCmd.setUniformIntArray "u_textures"
           ((List.range MAX_TEXTURE_SLOTS).map Int.ofNat)]
        ++ RectBatch.new.2) ∧
    (⟨⟨VERTEX_SHADER, FRAGMENT_SHADER⟩, ⟨[255, 255, 255, 255], 1, 1⟩,
        RectBatch.new.1⟩ : Renderer2D).default_texture
      = ⟨[255, 255, 255, 255], 1, 1⟩ :=
  ⟨rfl, (C9_renderer2d_batch_protocol (Mat4f.mk (List.replicate 16 0)) _ _
    rfl).1⟩

/-- Witness for C10 at the four-attribute vertex layout shape. -/
theorem C10_witness :
    (BufferLayout.new [BufferAttribute.new AttributeType.Vec3f false,
        BufferAttribute.new AttributeType.Vec2f false,
        BufferAttribute.new AttributeType.Vec4f false,
        BufferAttribute.new AttributeType.Float false]).offsets.length
      = [BufferAttribute.new AttributeType.Vec3f false,
        BufferAttribute.new AttributeType.Vec2f false,
        BufferAttribute.new AttributeType.Vec4f false,
        BufferAttribute.new AttributeType.Float false].length ∧
    (BufferLayout.new [BufferAttribute.new AttributeType.Vec3f false,
        BufferAttribute.new AttributeType.Vec2f false,
        BufferAttribute.new AttributeType.Vec4f false,
        BufferAttribute.new AttributeType.Float false]).offsets
      = [0, 12, 20, 36] ∧
    (BufferLayout.new [BufferAttribute.new AttributeType.Vec3f false,
        BufferAttribute.new AttributeType.Vec2f false,
        BufferAttribute.new AttributeType.Vec4f false,
        BufferAttribute.new AttributeType.Float false]).stride = 40 :=
  ⟨(C10_buffer_layout_offsets _).1, by decide, by decide⟩
